import Mathlib

/-
Verification of the command-dispatch layer of `client/cli/src/commands/mod.rs`:
the `Subcommand` selector enum and the `match_and_call!` forwarding
implementation of the `CliConfiguration` contract.
-/

namespace SubstrateCli

/-- Error carried by the crate-wide fallible alias `crate::Result`; the dispatch
layer treats it as opaque, so it is modelled as a wrapped message string. -/
structure Error where
  msg : String
deriving DecidableEq

/-- Fallible result alias `crate::Result` used by every contract method. -/
inductive Res (α : Type) where
  | ok (val : α)
  | err (e : Error)
deriving DecidableEq

/-- Filesystem path `std::path::PathBuf`, opaque here; modelled as a string. -/
abbrev PathBuf := String

/-- Opaque external value type `sc_service::config::DatabaseConfig`, consumed
only as a return type; modelled as a wrapped token. -/
structure DatabaseConfig where
  token : Nat
deriving DecidableEq

/-- Opaque external value type `sc_service::PruningMode`; a wrapped token. -/
structure PruningMode where
  token : Nat
deriving DecidableEq

/-- Opaque external value type `sc_service::Roles` (the node role set); a
wrapped token. -/
structure Roles where
  token : Nat
deriving DecidableEq

/-- Opaque external value type `sc_tracing::TracingReceiver`; a wrapped token. -/
structure TracingReceiver where
  token : Nat
deriving DecidableEq

/-- Opaque external value type `sc_service::config::WasmExecutionMethod`; a
wrapped token. -/
structure WasmExecutionMethod where
  token : Nat
deriving DecidableEq

/-- Opaque external value type
`sc_client_api::execution_extensions::ExecutionStrategies`; a wrapped token. -/
structure ExecutionStrategies where
  token : Nat
deriving DecidableEq

/-- Opaque external value type `sc_network::config::NodeKeyConfig`; a wrapped
token. -/
structure NodeKeyConfig where
  token : Nat
deriving DecidableEq

/-- Modelled from the spec: the CLI root type parameter `C : SubstrateCLI` of
the one-time initialization method carries global metadata (name, version,
support URL) and is represented, as the spec's design notes direct, as a value
passed explicitly into the call; opaque here, a wrapped token. -/
structure SubstrateCLI where
  token : Nat
deriving DecidableEq

/-- Modelled from the spec: process-wide state (such as the global logger) that
the one-time initialization method may affect, abstracted as a counter of
initialization effects performed so far; every other contract method is pure. -/
abbrev World := Nat

/-- Modelled from the spec: a concrete command's implementation of the
configuration contract. The six concrete command modules (`build_spec_cmd`,
`export_blocks_cmd`, `import_blocks_cmd`, `check_block_cmd`, `revert_cmd`,
`purge_chain_cmd`) are external collaborators whose sources are not present
under `src/`, so each command is modelled as an arbitrary implementation of the
thirteen contract methods; the method signatures are taken verbatim from the
`match_and_call!` invocations in `src/client/cli/src/commands/mod.rs`. -/
structure CliConfigurationImpl where
  base_path : Res (Option PathBuf)
  is_dev : Res Bool
  database_config : PathBuf → Option Nat → Res DatabaseConfig
  chain_id : Bool → Res String
  init : SubstrateCLI → World → Res Unit × World
  pruning : Bool → Roles → Res PruningMode
  tracing_receiver : Res TracingReceiver
  tracing_targets : Res (Option String)
  state_cache_size : Res Nat
  wasm_method : Res WasmExecutionMethod
  execution_strategies : Bool → Res ExecutionStrategies
  database_cache_size : Res (Option Nat)
  node_key : PathBuf → Res NodeKeyConfig

/-- Concrete command `BuildSpecCmd`: opaque payload carrying its own
implementation of the configuration contract. -/
structure BuildSpecCmd where
  conf : CliConfigurationImpl

/-- Concrete command `ExportBlocksCmd`. -/
structure ExportBlocksCmd where
  conf : CliConfigurationImpl

/-- Concrete command `ImportBlocksCmd`. -/
structure ImportBlocksCmd where
  conf : CliConfigurationImpl

/-- Concrete command `CheckBlockCmd`. -/
structure CheckBlockCmd where
  conf : CliConfigurationImpl

/-- Concrete command `RevertCmd`. -/
structure RevertCmd where
  conf : CliConfigurationImpl

/-- Concrete command `PurgeChainCmd`. -/
structure PurgeChainCmd where
  conf : CliConfigurationImpl

/-- Concrete command `RunCmd`, the default subcommand; it is exported by the
module but is not one of the `Subcommand` variants. -/
structure RunCmd where
  conf : CliConfigurationImpl

/-- The configuration contract: trait `CliConfiguration`, with the thirteen
method signatures exactly as listed in the `impl CliConfiguration for
Subcommand` block of `src/client/cli/src/commands/mod.rs`. -/
class CliConfiguration (T : Type) where
  base_path : T → Res (Option PathBuf)
  is_dev : T → Res Bool
  database_config : T → PathBuf → Option Nat → Res DatabaseConfig
  chain_id : T → Bool → Res String
  init : T → SubstrateCLI → World → Res Unit × World
  pruning : T → Bool → Roles → Res PruningMode
  tracing_receiver : T → Res TracingReceiver
  tracing_targets : T → Res (Option String)
  state_cache_size : T → Res Nat
  wasm_method : T → Res WasmExecutionMethod
  execution_strategies : T → Bool → Res ExecutionStrategies
  database_cache_size : T → Res (Option Nat)
  node_key : T → PathBuf → Res NodeKeyConfig

instance : CliConfiguration CliConfigurationImpl where
  base_path i := i.base_path
  is_dev i := i.is_dev
  database_config i := i.database_config
  chain_id i := i.chain_id
  init i := i.init
  pruning i := i.pruning
  tracing_receiver i := i.tracing_receiver
  tracing_targets i := i.tracing_targets
  state_cache_size i := i.state_cache_size
  wasm_method i := i.wasm_method
  execution_strategies i := i.execution_strategies
  database_cache_size i := i.database_cache_size
  node_key i := i.node_key

instance : CliConfiguration BuildSpecCmd where
  base_path c := c.conf.base_path
  is_dev c := c.conf.is_dev
  database_config c := c.conf.database_config
  chain_id c := c.conf.chain_id
  init c := c.conf.init
  pruning c := c.conf.pruning
  tracing_receiver c := c.conf.tracing_receiver
  tracing_targets c := c.conf.tracing_targets
  state_cache_size c := c.conf.state_cache_size
  wasm_method c := c.conf.wasm_method
  execution_strategies c := c.conf.execution_strategies
  database_cache_size c := c.conf.database_cache_size
  node_key c := c.conf.node_key

instance : CliConfiguration ExportBlocksCmd where
  base_path c := c.conf.base_path
  is_dev c := c.conf.is_dev
  database_config c := c.conf.database_config
  chain_id c := c.conf.chain_id
  init c := c.conf.init
  pruning c := c.conf.pruning
  tracing_receiver c := c.conf.tracing_receiver
  tracing_targets c := c.conf.tracing_targets
  state_cache_size c := c.conf.state_cache_size
  wasm_method c := c.conf.wasm_method
  execution_strategies c := c.conf.execution_strategies
  database_cache_size c := c.conf.database_cache_size
  node_key c := c.conf.node_key

instance : CliConfiguration ImportBlocksCmd where
  base_path c := c.conf.base_path
  is_dev c := c.conf.is_dev
  database_config c := c.conf.database_config
  chain_id c := c.conf.chain_id
  init c := c.conf.init
  pruning c := c.conf.pruning
  tracing_receiver c := c.conf.tracing_receiver
  tracing_targets c := c.conf.tracing_targets
  state_cache_size c := c.conf.state_cache_size
  wasm_method c := c.conf.wasm_method
  execution_strategies c := c.conf.execution_strategies
  database_cache_size c := c.conf.database_cache_size
  node_key c := c.conf.node_key

instance : CliConfiguration CheckBlockCmd where
  base_path c := c.conf.base_path
  is_dev c := c.conf.is_dev
  database_config c := c.conf.database_config
  chain_id c := c.conf.chain_id
  init c := c.conf.init
  pruning c := c.conf.pruning
  tracing_receiver c := c.conf.tracing_receiver
  tracing_targets c := c.conf.tracing_targets
  state_cache_size c := c.conf.state_cache_size
  wasm_method c := c.conf.wasm_method
  execution_strategies c := c.conf.execution_strategies
  database_cache_size c := c.conf.database_cache_size
  node_key c := c.conf.node_key

instance : CliConfiguration RevertCmd where
  base_path c := c.conf.base_path
  is_dev c := c.conf.is_dev
  database_config c := c.conf.database_config
  chain_id c := c.conf.chain_id
  init c := c.conf.init
  pruning c := c.conf.pruning
  tracing_receiver c := c.conf.tracing_receiver
  tracing_targets c := c.conf.tracing_targets
  state_cache_size c := c.conf.state_cache_size
  wasm_method c := c.conf.wasm_method
  execution_strategies c := c.conf.execution_strategies
  database_cache_size c := c.conf.database_cache_size
  node_key c := c.conf.node_key

instance : CliConfiguration PurgeChainCmd where
  base_path c := c.conf.base_path
  is_dev c := c.conf.is_dev
  database_config c := c.conf.database_config
  chain_id c := c.conf.chain_id
  init c := c.conf.init
  pruning c := c.conf.pruning
  tracing_receiver c := c.conf.tracing_receiver
  tracing_targets c := c.conf.tracing_targets
  state_cache_size c := c.conf.state_cache_size
  wasm_method c := c.conf.wasm_method
  execution_strategies c := c.conf.execution_strategies
  database_cache_size c := c.conf.database_cache_size
  node_key c := c.conf.node_key

/-- The selector: enum `Subcommand` of `src/client/cli/src/commands/mod.rs`,
all core commands provided by default, one variant per concrete command
(`Run` is the default subcommand and is not a variant). -/
inductive Subcommand where
  | BuildSpec (cmd : BuildSpecCmd)
  | ExportBlocks (cmd : ExportBlocksCmd)
  | ImportBlocks (cmd : ImportBlocksCmd)
  | CheckBlock (cmd : CheckBlockCmd)
  | Revert (cmd : RevertCmd)
  | PurgeChain (cmd : PurgeChainCmd)

/-- Contract implementation of the concrete command wrapped by the active
variant. -/
def Subcommand.conf : Subcommand → CliConfigurationImpl
  | .BuildSpec cmd => cmd.conf
  | .ExportBlocks cmd => cmd.conf
  | .ImportBlocks cmd => cmd.conf
  | .CheckBlock cmd => cmd.conf
  | .Revert cmd => cmd.conf
  | .PurgeChain cmd => cmd.conf

/-- Numeric discriminant of the active variant, in source declaration order. -/
def Subcommand.tag : Subcommand → Nat
  | .BuildSpec _ => 0
  | .ExportBlocks _ => 1
  | .ImportBlocks _ => 2
  | .CheckBlock _ => 3
  | .Revert _ => 4
  | .PurgeChain _ => 5

instance : CliConfiguration Subcommand where
  base_path s :=
    match s with
    | .BuildSpec cmd => CliConfiguration.base_path cmd
    | .ExportBlocks cmd => CliConfiguration.base_path cmd
    | .ImportBlocks cmd => CliConfiguration.base_path cmd
    | .CheckBlock cmd => CliConfiguration.base_path cmd
    | .Revert cmd => CliConfiguration.base_path cmd
    | .PurgeChain cmd => CliConfiguration.base_path cmd
  is_dev s :=
    match s with
    | .BuildSpec cmd => CliConfiguration.is_dev cmd
    | .ExportBlocks cmd => CliConfiguration.is_dev cmd
    | .ImportBlocks cmd => CliConfiguration.is_dev cmd
    | .CheckBlock cmd => CliConfiguration.is_dev cmd
    | .Revert cmd => CliConfiguration.is_dev cmd
    | .PurgeChain cmd => CliConfiguration.is_dev cmd
  database_config s bp cs :=
    match s with
    | .BuildSpec cmd => CliConfiguration.database_config cmd bp cs
    | .ExportBlocks cmd => CliConfiguration.database_config cmd bp cs
    | .ImportBlocks cmd => CliConfiguration.database_config cmd bp cs
    | .CheckBlock cmd => CliConfiguration.database_config cmd bp cs
    | .Revert cmd => CliConfiguration.database_config cmd bp cs
    | .PurgeChain cmd => CliConfiguration.database_config cmd bp cs
  chain_id s d :=
    match s with
    | .BuildSpec cmd => CliConfiguration.chain_id cmd d
    | .ExportBlocks cmd => CliConfiguration.chain_id cmd d
    | .ImportBlocks cmd => CliConfiguration.chain_id cmd d
    | .CheckBlock cmd => CliConfiguration.chain_id cmd d
    | .Revert cmd => CliConfiguration.chain_id cmd d
    | .PurgeChain cmd => CliConfiguration.chain_id cmd d
  init s C w :=
    match s with
    | .BuildSpec cmd => CliConfiguration.init cmd C w
    | .ExportBlocks cmd => CliConfiguration.init cmd C w
    | .ImportBlocks cmd => CliConfiguration.init cmd C w
    | .CheckBlock cmd => CliConfiguration.init cmd C w
    | .Revert cmd => CliConfiguration.init cmd C w
    | .PurgeChain cmd => CliConfiguration.init cmd C w
  pruning s d r :=
    match s with
    | .BuildSpec cmd => CliConfiguration.pruning cmd d r
    | .ExportBlocks cmd => CliConfiguration.pruning cmd d r
    | .ImportBlocks cmd => CliConfiguration.pruning cmd d r
    | .CheckBlock cmd => CliConfiguration.pruning cmd d r
    | .Revert cmd => CliConfiguration.pruning cmd d r
    | .PurgeChain cmd => CliConfiguration.pruning cmd d r
  tracing_receiver s :=
    match s with
    | .BuildSpec cmd => CliConfiguration.tracing_receiver cmd
    | .ExportBlocks cmd => CliConfiguration.tracing_receiver cmd
    | .ImportBlocks cmd => CliConfiguration.tracing_receiver cmd
    | .CheckBlock cmd => CliConfiguration.tracing_receiver cmd
    | .Revert cmd => CliConfiguration.tracing_receiver cmd
    | .PurgeChain cmd => CliConfiguration.tracing_receiver cmd
  tracing_targets s :=
    match s with
    | .BuildSpec cmd => CliConfiguration.tracing_targets cmd
    | .ExportBlocks cmd => CliConfiguration.tracing_targets cmd
    | .ImportBlocks cmd => CliConfiguration.tracing_targets cmd
    | .CheckBlock cmd => CliConfiguration.tracing_targets cmd
    | .Revert cmd => CliConfiguration.tracing_targets cmd
    | .PurgeChain cmd => CliConfiguration.tracing_targets cmd
  state_cache_size s :=
    match s with
    | .BuildSpec cmd => CliConfiguration.state_cache_size cmd
    | .ExportBlocks cmd => CliConfiguration.state_cache_size cmd
    | .ImportBlocks cmd => CliConfiguration.state_cache_size cmd
    | .CheckBlock cmd => CliConfiguration.state_cache_size cmd
    | .Revert cmd => CliConfiguration.state_cache_size cmd
    | .PurgeChain cmd => CliConfiguration.state_cache_size cmd
  wasm_method s :=
    match s with
    | .BuildSpec cmd => CliConfiguration.wasm_method cmd
    | .ExportBlocks cmd => CliConfiguration.wasm_method cmd
    | .ImportBlocks cmd => CliConfiguration.wasm_method cmd
    | .CheckBlock cmd => CliConfiguration.wasm_method cmd
    | .Revert cmd => CliConfiguration.wasm_method cmd
    | .PurgeChain cmd => CliConfiguration.wasm_method cmd
  execution_strategies s d :=
    match s with
    | .BuildSpec cmd => CliConfiguration.execution_strategies cmd d
    | .ExportBlocks cmd => CliConfiguration.execution_strategies cmd d
    | .ImportBlocks cmd => CliConfiguration.execution_strategies cmd d
    | .CheckBlock cmd => CliConfiguration.execution_strategies cmd d
    | .Revert cmd => CliConfiguration.execution_strategies cmd d
    | .PurgeChain cmd => CliConfiguration.execution_strategies cmd d
  database_cache_size s :=
    match s with
    | .BuildSpec cmd => CliConfiguration.database_cache_size cmd
    | .ExportBlocks cmd => CliConfiguration.database_cache_size cmd
    | .ImportBlocks cmd => CliConfiguration.database_cache_size cmd
    | .CheckBlock cmd => CliConfiguration.database_cache_size cmd
    | .Revert cmd => CliConfiguration.database_cache_size cmd
    | .PurgeChain cmd => CliConfiguration.database_cache_size cmd
  node_key s dir :=
    match s with
    | .BuildSpec cmd => CliConfiguration.node_key cmd dir
    | .ExportBlocks cmd => CliConfiguration.node_key cmd dir
    | .ImportBlocks cmd => CliConfiguration.node_key cmd dir
    | .CheckBlock cmd => CliConfiguration.node_key cmd dir
    | .Revert cmd => CliConfiguration.node_key cmd dir
    | .PurgeChain cmd => CliConfiguration.node_key cmd dir

/-- One contract-method invocation, with its arguments: a deep enumeration of
the thirteen operations of the configuration contract. -/
inductive MethodCall where
  | base_path
  | is_dev
  | database_config (bp : PathBuf) (cs : Option Nat)
  | chain_id (d : Bool)
  | init (C : SubstrateCLI)
  | pruning (d : Bool) (r : Roles)
  | tracing_receiver
  | tracing_targets
  | state_cache_size
  | wasm_method
  | execution_strategies (d : Bool)
  | database_cache_size
  | node_key (dir : PathBuf)
deriving DecidableEq

/-- Outcome of one contract-method invocation, tagged with the method. -/
inductive CallResult where
  | base_path (r : Res (Option PathBuf))
  | is_dev (r : Res Bool)
  | database_config (r : Res DatabaseConfig)
  | chain_id (r : Res String)
  | init (r : Res Unit)
  | pruning (r : Res PruningMode)
  | tracing_receiver (r : Res TracingReceiver)
  | tracing_targets (r : Res (Option String))
  | state_cache_size (r : Res Nat)
  | wasm_method (r : Res WasmExecutionMethod)
  | execution_strategies (r : Res ExecutionStrategies)
  | database_cache_size (r : Res (Option Nat))
  | node_key (r : Res NodeKeyConfig)
deriving DecidableEq

/-- Error component of a result, if any. -/
def Res.errorOf {α : Type} : Res α → Option Error
  | .ok _ => none
  | .err e => some e

/-- Error component of a call outcome, if any. -/
def CallResult.errorOf : CallResult → Option Error
  | .base_path r => r.errorOf
  | .is_dev r => r.errorOf
  | .database_config r => r.errorOf
  | .chain_id r => r.errorOf
  | .init r => r.errorOf
  | .pruning r => r.errorOf
  | .tracing_receiver r => r.errorOf
  | .tracing_targets r => r.errorOf
  | .state_cache_size r => r.errorOf
  | .wasm_method r => r.errorOf
  | .execution_strategies r => r.errorOf
  | .database_cache_size r => r.errorOf
  | .node_key r => r.errorOf

/-- Perform one contract-method call on any value implementing the contract,
threading the process-wide state that only `init` touches. -/
def invokeOn {T : Type} [CliConfiguration T] (x : T) (m : MethodCall)
    (w : World) : CallResult × World :=
  match m with
  | .base_path => (.base_path (CliConfiguration.base_path x), w)
  | .is_dev => (.is_dev (CliConfiguration.is_dev x), w)
  | .database_config bp cs =>
      (.database_config (CliConfiguration.database_config x bp cs), w)
  | .chain_id d => (.chain_id (CliConfiguration.chain_id x d), w)
  | .init C =>
      let p := CliConfiguration.init x C w
      (.init p.1, p.2)
  | .pruning d r => (.pruning (CliConfiguration.pruning x d r), w)
  | .tracing_receiver => (.tracing_receiver (CliConfiguration.tracing_receiver x), w)
  | .tracing_targets => (.tracing_targets (CliConfiguration.tracing_targets x), w)
  | .state_cache_size => (.state_cache_size (CliConfiguration.state_cache_size x), w)
  | .wasm_method => (.wasm_method (CliConfiguration.wasm_method x), w)
  | .execution_strategies d =>
      (.execution_strategies (CliConfiguration.execution_strategies x d), w)
  | .database_cache_size =>
      (.database_cache_size (CliConfiguration.database_cache_size x), w)
  | .node_key dir => (.node_key (CliConfiguration.node_key x dir), w)

/-- One contract-method call through the selector, together with the selector
value after the call: every method in `impl CliConfiguration for Subcommand`
takes `&self` and no payload has interior mutability, so the post-call selector
is the very value it was before the call. -/
def Subcommand.invoke (s : Subcommand) (m : MethodCall) (w : World) :
    CallResult × Subcommand × World :=
  ((invokeOn s m w).1, s, (invokeOn s m w).2)

/-- Two independently constructed selectors side by side, with a call performed
on the first: the call reads only its own receiver (`&self`), and the module
has no global state, so the second selector is merely carried along. -/
def invokePair (s1 s2 : Subcommand) (m : MethodCall) (w : World) :
    CallResult × Subcommand × Subcommand × World :=
  ((s1.invoke m w).1, (s1.invoke m w).2.1, s2, (s1.invoke m w).2.2)

/-- Derived `Clone` on `BuildSpecCmd`: field-wise reconstruction. -/
def BuildSpecCmd.clone (c : BuildSpecCmd) : BuildSpecCmd := ⟨c.conf⟩

/-- Derived `Clone` on `ExportBlocksCmd`. -/
def ExportBlocksCmd.clone (c : ExportBlocksCmd) : ExportBlocksCmd := ⟨c.conf⟩

/-- Derived `Clone` on `ImportBlocksCmd`. -/
def ImportBlocksCmd.clone (c : ImportBlocksCmd) : ImportBlocksCmd := ⟨c.conf⟩

/-- Derived `Clone` on `CheckBlockCmd`. -/
def CheckBlockCmd.clone (c : CheckBlockCmd) : CheckBlockCmd := ⟨c.conf⟩

/-- Derived `Clone` on `RevertCmd`. -/
def RevertCmd.clone (c : RevertCmd) : RevertCmd := ⟨c.conf⟩

/-- Derived `Clone` on `PurgeChainCmd`. -/
def PurgeChainCmd.clone (c : PurgeChainCmd) : PurgeChainCmd := ⟨c.conf⟩

/-- Derived `Clone` on `Subcommand` (`#[derive(Debug, Clone, StructOpt)]`):
clones the payload of the active variant into the same variant. -/
def Subcommand.clone : Subcommand → Subcommand
  | .BuildSpec cmd => .BuildSpec cmd.clone
  | .ExportBlocks cmd => .ExportBlocks cmd.clone
  | .ImportBlocks cmd => .ImportBlocks cmd.clone
  | .CheckBlock cmd => .CheckBlock cmd.clone
  | .Revert cmd => .Revert cmd.clone
  | .PurgeChain cmd => .PurgeChain cmd.clone

/-- Deterministic stub implementation of the contract, used to exercise the
dispatch on concrete inputs (the spec's stub-based test scenarios). -/
def stubImpl : CliConfigurationImpl where
  base_path := .ok none
  is_dev := .ok false
  database_config := fun _ _ => .ok ⟨0⟩
  chain_id := fun _ => .ok "dev"
  init := fun _ w => (.ok (), w)
  pruning := fun _ _ => .ok ⟨0⟩
  tracing_receiver := .ok ⟨0⟩
  tracing_targets := .ok none
  state_cache_size := .ok 0
  wasm_method := .ok ⟨0⟩
  execution_strategies := fun _ => .ok ⟨0⟩
  database_cache_size := .ok none
  node_key := fun _ => .ok ⟨0⟩

/-- Stub whose base-path resolution yields `/tmp/chain` (spec scenario). -/
def basePathStub : CliConfigurationImpl :=
  { stubImpl with base_path := .ok (some "/tmp/chain") }

/-- Stub whose database-configuration resolution fails with `invalid path`
(spec error-propagation scenario). -/
def invalidPathStub : CliConfigurationImpl :=
  { stubImpl with database_config := fun _ _ => .err ⟨"invalid path"⟩ }

/-- Stub whose one-time initialization performs exactly one process-wide
initialization effect per execution. -/
def countingStub : CliConfigurationImpl :=
  { stubImpl with init := fun _ w => (.ok (), w + 1) }

/-- Stub whose pruning resolution encodes the exact arguments it received into
its result, to observe that the dispatch passes them through unmodified. -/
def recordingStub : CliConfigurationImpl :=
  { stubImpl with
      pruning := fun d r => .ok ⟨2 * r.token + (if d then 1 else 0)⟩ }

/-- Forwarding through the selector agrees with acting directly on the wrapped
implementation, for every variant, method, argument and state. -/
theorem invoke_forward (s : Subcommand) (m : MethodCall) (w : World) :
    invokeOn s m w = invokeOn s.conf m w := by
  cases s <;> cases m <;> rfl

/-- C1 Forwarding fidelity: for every one of the six variants, every one of the
thirteen contract methods (with arbitrary arguments, enumerated by
`MethodCall`) and every process state, invoking the method through the selector
returns exactly the same outcome — same success value or same error, and the
same state effect — as invoking the method directly on the wrapped concrete
command value. -/
theorem forwarding_fidelity (m : MethodCall) (w : World) :
    (∀ c : BuildSpecCmd, invokeOn (Subcommand.BuildSpec c) m w = invokeOn c m w)
    ∧ (∀ c : ExportBlocksCmd, invokeOn (Subcommand.ExportBlocks c) m w = invokeOn c m w)
    ∧ (∀ c : ImportBlocksCmd, invokeOn (Subcommand.ImportBlocks c) m w = invokeOn c m w)
    ∧ (∀ c : CheckBlockCmd, invokeOn (Subcommand.CheckBlock c) m w = invokeOn c m w)
    ∧ (∀ c : RevertCmd, invokeOn (Subcommand.Revert c) m w = invokeOn c m w)
    ∧ (∀ c : PurgeChainCmd, invokeOn (Subcommand.PurgeChain c) m w = invokeOn c m w) := by
  refine ⟨fun c => ?_, fun c => ?_, fun c => ?_, fun c => ?_, fun c => ?_, fun c => ?_⟩
    <;> cases m <;> rfl

/-- C2 Totality of dispatch: for every selector value (any of the six variants)
and every contract method with any arguments, dispatch resolves to exactly one
concrete target, the corresponding method of the wrapped concrete command: the
match over variants is exhaustive, so no selector value and method pair is
unhandled. -/
theorem dispatch_total (s : Subcommand) (m : MethodCall) (w : World) :
    invokeOn s m w = invokeOn s.conf m w
    ∧ (Subcommand.invoke s m w).1 = (invokeOn s.conf m w).1 := by
  have h := invoke_forward s m w
  exact ⟨h, by rw [Subcommand.invoke, h]⟩

/-- C3 Transparent error conduit: for every variant and contract method, if the
wrapped concrete command's method fails with error `e`, the selector's method
fails with exactly `e`, and the selector never produces an error when the
wrapped command's method succeeds. -/
theorem error_conduit (s : Subcommand) (m : MethodCall) (w : World) :
    (∀ e : Error, ((invokeOn s.conf m w).1).errorOf = some e →
      ((invokeOn s m w).1).errorOf = some e)
    ∧ (((invokeOn s.conf m w).1).errorOf = none →
      ((invokeOn s m w).1).errorOf = none) := by
  rw [invoke_forward s m w]
  exact ⟨fun e he => he, fun hn => hn⟩

/-- C3 witness: a purge-chain selector whose command's database-configuration
resolution fails with `invalid path` fails with exactly `invalid path`. -/
theorem error_conduit_witness :
    ((invokeOn (Subcommand.PurgeChain ⟨invalidPathStub⟩)
        (MethodCall.database_config "/bad" none) 0).1).errorOf
      = some ⟨"invalid path"⟩ :=
  (error_conduit (Subcommand.PurgeChain ⟨invalidPathStub⟩)
    (MethodCall.database_config "/bad" none) 0).1 ⟨"invalid path"⟩ rfl

/-- C4 Argument preservation: the selector passes its method arguments to the
wrapped command unmodified; in particular, calling `pruning` on an
export-blocks selector with `is_dev = false` and any role set reaches the
wrapped command's `pruning` with exactly `false` and that same role set, as the
recording stub makes observable. -/
theorem argument_preservation :
    (∀ (s : Subcommand) (d : Bool) (r : Roles),
        CliConfiguration.pruning s d r = (Subcommand.conf s).pruning d r)
    ∧ (∀ r : Roles,
        CliConfiguration.pruning (Subcommand.ExportBlocks ⟨recordingStub⟩) false r
          = Res.ok ⟨2 * r.token⟩) := by
  constructor
  · intro s d r
    cases s <;> rfl
  · intro r
    rfl

/-- C5 Closed six-variant union: every `Subcommand` value is exactly one of the
six variants BuildSpec, ExportBlocks, ImportBlocks, CheckBlock, Revert,
PurgeChain (so no variant wraps the Run command); each variant wraps exactly
one concrete command value of the corresponding type (constructors are
injective), and the variants are mutually exclusive (values built from
different constructors are never equal). -/
theorem closed_union :
    (∀ s : Subcommand,
        (∃ c, s = Subcommand.BuildSpec c) ∨ (∃ c, s = Subcommand.ExportBlocks c)
        ∨ (∃ c, s = Subcommand.ImportBlocks c) ∨ (∃ c, s = Subcommand.CheckBlock c)
        ∨ (∃ c, s = Subcommand.Revert c) ∨ (∃ c, s = Subcommand.PurgeChain c))
    ∧ ((∀ c c' : BuildSpecCmd,
          Subcommand.BuildSpec c = Subcommand.BuildSpec c' → c = c')
       ∧ (∀ c c' : ExportBlocksCmd,
          Subcommand.ExportBlocks c = Subcommand.ExportBlocks c' → c = c')
       ∧ (∀ c c' : ImportBlocksCmd,
          Subcommand.ImportBlocks c = Subcommand.ImportBlocks c' → c = c')
       ∧ (∀ c c' : CheckBlockCmd,
          Subcommand.CheckBlock c = Subcommand.CheckBlock c' → c = c')
       ∧ (∀ c c' : RevertCmd,
          Subcommand.Revert c = Subcommand.Revert c' → c = c')
       ∧ (∀ c c' : PurgeChainCmd,
          Subcommand.PurgeChain c = Subcommand.PurgeChain c' → c = c'))
    ∧ (∀ (b : BuildSpecCmd) (e : ExportBlocksCmd) (i : ImportBlocksCmd)
         (k : CheckBlockCmd) (v : RevertCmd) (p : PurgeChainCmd),
        Subcommand.BuildSpec b ≠ Subcommand.ExportBlocks e
        ∧ Subcommand.BuildSpec b ≠ Subcommand.ImportBlocks i
        ∧ Subcommand.BuildSpec b ≠ Subcommand.CheckBlock k
        ∧ Subcommand.BuildSpec b ≠ Subcommand.Revert v
        ∧ Subcommand.BuildSpec b ≠ Subcommand.PurgeChain p
        ∧ Subcommand.ExportBlocks e ≠ Subcommand.ImportBlocks i
        ∧ Subcommand.ExportBlocks e ≠ Subcommand.CheckBlock k
        ∧ Subcommand.ExportBlocks e ≠ Subcommand.Revert v
        ∧ Subcommand.ExportBlocks e ≠ Subcommand.PurgeChain p
        ∧ Subcommand.ImportBlocks i ≠ Subcommand.CheckBlock k
        ∧ Subcommand.ImportBlocks i ≠ Subcommand.Revert v
        ∧ Subcommand.ImportBlocks i ≠ Subcommand.PurgeChain p
        ∧ Subcommand.CheckBlock k ≠ Subcommand.Revert v
        ∧ Subcommand.CheckBlock k ≠ Subcommand.PurgeChain p
        ∧ Subcommand.Revert v ≠ Subcommand.PurgeChain p) := by
  refine ⟨?_, ⟨?_, ?_, ?_, ?_, ?_, ?_⟩, ?_⟩
  · intro s
    cases s with
    | BuildSpec c => exact Or.inl ⟨c, rfl⟩
    | ExportBlocks c => exact Or.inr (Or.inl ⟨c, rfl⟩)
    | ImportBlocks c => exact Or.inr (Or.inr (Or.inl ⟨c, rfl⟩))
    | CheckBlock c => exact Or.inr (Or.inr (Or.inr (Or.inl ⟨c, rfl⟩)))
    | Revert c => exact Or.inr (Or.inr (Or.inr (Or.inr (Or.inl ⟨c, rfl⟩))))
    | PurgeChain c => exact Or.inr (Or.inr (Or.inr (Or.inr (Or.inr ⟨c, rfl⟩))))
  · intro c c' h
    injection h
  · intro c c' h
    injection h
  · intro c c' h
    injection h
  · intro c c' h
    injection h
  · intro c c' h
    injection h
  · intro c c' h
    injection h
  · intro b e i k v p
    exact ⟨fun h => Subcommand.noConfusion h, fun h => Subcommand.noConfusion h,
      fun h => Subcommand.noConfusion h, fun h => Subcommand.noConfusion h,
      fun h => Subcommand.noConfusion h, fun h => Subcommand.noConfusion h,
      fun h => Subcommand.noConfusion h, fun h => Subcommand.noConfusion h,
      fun h => Subcommand.noConfusion h, fun h => Subcommand.noConfusion h,
      fun h => Subcommand.noConfusion h, fun h => Subcommand.noConfusion h,
      fun h => Subcommand.noConfusion h, fun h => Subcommand.noConfusion h,
      fun h => Subcommand.noConfusion h⟩

/-- C5 witness: the injectivity component applied at a concrete payload. -/
theorem closed_union_witness :
    (⟨stubImpl⟩ : BuildSpecCmd) = ⟨stubImpl⟩ :=
  closed_union.2.1.1 ⟨stubImpl⟩ ⟨stubImpl⟩ rfl

/-- C6 Contract signature shapes: resolve base path takes no inputs and returns
an optional filesystem path — a build-spec selector whose command resolves base
path `/tmp/chain` returns `some "/tmp/chain"` — resolve state cache size
returns a non-optional size, resolve database cache size returns an optional
size, and every operation returns a fallible result. -/
theorem contract_shapes :
    CliConfiguration.base_path (Subcommand.BuildSpec ⟨basePathStub⟩)
        = Res.ok (some "/tmp/chain")
    ∧ (∀ s : Subcommand,
        ∃ r : Res (Option PathBuf), CliConfiguration.base_path s = r)
    ∧ (∀ s : Subcommand,
        ∃ n : Res Nat, CliConfiguration.state_cache_size s = n)
    ∧ (∀ s : Subcommand,
        ∃ n : Res (Option Nat), CliConfiguration.database_cache_size s = n)
    ∧ (∀ (s : Subcommand) (m : MethodCall) (w : World),
        ∃ out : CallResult × World, invokeOn s m w = out) :=
  ⟨rfl, fun _ => ⟨_, rfl⟩, fun _ => ⟨_, rfl⟩, fun _ => ⟨_, rfl⟩,
    fun _ _ _ => ⟨_, rfl⟩⟩

/-- C7 One-time initialization forwarding: for every variant, the selector's
`init` invokes the wrapped command's `init` with exactly the same CLI root
value `C`, returning its unit result or error unchanged; and when each
execution of the wrapped `init` performs exactly one process-wide
initialization effect, a selector call from state `w` ends in state `w + 1` —
the dispatch layer itself never repeats the initialization. -/
theorem init_forwarding (s : Subcommand) (C : SubstrateCLI) (w : World)
    (hone : ∀ (C' : SubstrateCLI) (w' : World),
      ((Subcommand.conf s).init C' w').2 = w' + 1) :
    CliConfiguration.init s C w = (Subcommand.conf s).init C w
    ∧ (CliConfiguration.init s C w).2 = w + 1 := by
  have h : CliConfiguration.init s C w = (Subcommand.conf s).init C w := by
    cases s <;> rfl
  exact ⟨h, by rw [h]; exact hone C w⟩

/-- C7 witness: a revert selector over the counting stub initializes exactly
once. -/
theorem init_forwarding_witness :
    CliConfiguration.init (Subcommand.Revert ⟨countingStub⟩) ⟨0⟩ 0
        = countingStub.init ⟨0⟩ 0
    ∧ (CliConfiguration.init (Subcommand.Revert ⟨countingStub⟩) ⟨0⟩ 0).2 = 0 + 1 :=
  init_forwarding (Subcommand.Revert ⟨countingStub⟩) ⟨0⟩ 0 (fun _ _ => rfl)

/-- C8 Read-only selector: after invoking any contract method with any
arguments and state, the selector value — which variant is active and the
wrapped command's data — is unchanged from before the call. -/
theorem selector_read_only (s : Subcommand) (m : MethodCall) (w : World) :
    (Subcommand.invoke s m w).2.1 = s := rfl

/-- C9 No cross-talk: for two independently constructed selectors, a method
call on the first yields a result and state effect that are identical whatever
the second selector holds, and leaves both the second and the first selector
unchanged. -/
theorem no_cross_talk (s1 s2 s2' : Subcommand) (m : MethodCall) (w : World) :
    (invokePair s1 s2 m w).1 = (invokePair s1 s2' m w).1
    ∧ (invokePair s1 s2 m w).2.2.2 = (invokePair s1 s2' m w).2.2.2
    ∧ (invokePair s1 s2 m w).2.2.1 = s2
    ∧ (invokePair s1 s2 m w).2.1 = s1 :=
  ⟨rfl, rfl, rfl, rfl⟩

/-- C10 Clone preserves behavior: a clone of a selector is the same variant
wrapping an equal concrete command value, and every contract method applied to
the clone with any arguments returns exactly the same result. -/
theorem clone_preserves (s : Subcommand) :
    Subcommand.clone s = s
    ∧ (∀ (m : MethodCall) (w : World),
        invokeOn (Subcommand.clone s) m w = invokeOn s m w) := by
  cases s <;> exact ⟨rfl, fun _ _ => rfl⟩

end SubstrateCli
